import Mathlib

/-!
Verification of the credit-risk scoring pipeline in `app.py`.

The pipeline is embedded shallowly: numeric dataframe cells become rationals,
a one-row dataframe becomes an ordered list of (column name, value) pairs,
per-request failures (`st.stop()` after a caught exception) become `none`,
and the fitted artifacts (imputer statistics, schema column list, scaler
parameters, classifier) become an explicit read-only structure.
-/

namespace CreditRisk

/-- The ten raw borrower fields assembled into `input_data` in `main`
(lines 258–269). `MonthlyIncome` and `NumberOfDependents` are the two fields
the fitted imputers fill, so they may be missing. -/
structure ApplicantRecord where
  RevolvingUtilizationOfUnsecuredLines : ℚ
  age : ℚ
  NumberOfTime30_59DaysPastDueNotWorse : ℚ
  DebtRatio : ℚ
  MonthlyIncome : Option ℚ
  NumberOfOpenCreditLinesAndLoans : ℚ
  NumberOfTimes90DaysLate : ℚ
  NumberRealEstateLoansOrLines : ℚ
  NumberOfTime60_89DaysPastDueNotWorse : ℚ
  NumberOfDependents : Option ℚ
deriving DecidableEq

/-- The record after both imputers ran: every field holds a value. -/
structure ImputedRecord where
  RevolvingUtilizationOfUnsecuredLines : ℚ
  age : ℚ
  NumberOfTime30_59DaysPastDueNotWorse : ℚ
  DebtRatio : ℚ
  MonthlyIncome : ℚ
  NumberOfOpenCreditLinesAndLoans : ℚ
  NumberOfTimes90DaysLate : ℚ
  NumberRealEstateLoansOrLines : ℚ
  NumberOfTime60_89DaysPastDueNotWorse : ℚ
  NumberOfDependents : ℚ
deriving DecidableEq

/-- The fitted artifacts returned by `load_artifacts`: the two imputer
statistics, the training-time schema `feature_names`, the per-column
(mean, scale) pairs of the fitted `StandardScaler`, and the class-1
probability function of the fitted `XGBClassifier` (opaque here). -/
structure Artifacts where
  medianIncome : ℚ
  modeDependents : ℚ
  feature_names : List String
  scalerParams : List (ℚ × ℚ)
  predictProba : List ℚ → ℚ

/-- A single imputer column transform: a missing value is replaced by the
fitted statistic, a present value passes through unchanged. -/
def impute (v : Option ℚ) (statistic : ℚ) : ℚ := v.getD statistic

/-- Lines 181–182: `imputer_median.transform` on `MonthlyIncome` and
`imputer_mode.transform` on `NumberOfDependents`; all other columns are
untouched. -/
def imputeRecord (arts : Artifacts) (r : ApplicantRecord) : ImputedRecord where
  RevolvingUtilizationOfUnsecuredLines := r.RevolvingUtilizationOfUnsecuredLines
  age := r.age
  NumberOfTime30_59DaysPastDueNotWorse := r.NumberOfTime30_59DaysPastDueNotWorse
  DebtRatio := r.DebtRatio
  MonthlyIncome := impute r.MonthlyIncome arts.medianIncome
  NumberOfOpenCreditLinesAndLoans := r.NumberOfOpenCreditLinesAndLoans
  NumberOfTimes90DaysLate := r.NumberOfTimes90DaysLate
  NumberRealEstateLoansOrLines := r.NumberRealEstateLoansOrLines
  NumberOfTime60_89DaysPastDueNotWorse := r.NumberOfTime60_89DaysPastDueNotWorse
  NumberOfDependents := impute r.NumberOfDependents arts.modeDependents

/-- A one-row dataframe: ordered (column name, value) pairs. -/
abbrev Row := List (String × ℚ)

/-- Membership test `col in df.columns`. -/
def hasCol (row : Row) (c : String) : Bool := row.any (fun p => p.1 == c)

/-- Reading the value of a named column (first occurrence). -/
def lookupCol (row : Row) (c : String) : Option ℚ :=
  (row.find? (fun p => p.1 == c)).map Prod.snd

/-- Truncation toward zero, as `astype(int)` does on line 169. -/
def ratTrunc (q : ℚ) : ℤ := if 0 ≤ q then ⌊q⌋ else ⌈q⌉

/-- The four age buckets of line 173, in bin order. -/
inductive AgeGroup where
  | Young
  | MiddleAged
  | Senior
  | Elderly
deriving DecidableEq

/-- Lines 170–174: `pd.cut(age, bins=[0, 30, 50, 65, 100], labels=[...])`.
Bins are right-closed; an age outside (0, 100] falls into no bucket. -/
def pdCutAge (a : ℤ) : Option AgeGroup :=
  if 0 < a ∧ a ≤ 30 then some AgeGroup.Young
  else if 30 < a ∧ a ≤ 50 then some AgeGroup.MiddleAged
  else if 50 < a ∧ a ≤ 65 then some AgeGroup.Senior
  else if 65 < a ∧ a ≤ 100 then some AgeGroup.Elderly
  else none

/-- Lines 156–160: sum of the three delinquency-count buckets. -/
def TotalMissedPayments (r : ImputedRecord) : ℚ :=
  r.NumberOfTime30_59DaysPastDueNotWorse +
  r.NumberOfTime60_89DaysPastDueNotWorse +
  r.NumberOfTimes90DaysLate

/-- The epsilon literal `1e-6` of line 164. -/
def eps : ℚ := 1 / 1000000

/-- Lines 161–165: `np.where(DebtRatio == 0, 0, MonthlyIncome / (DebtRatio * MonthlyIncome + 1e-6))`. -/
def IncomeDebtRatio (debtRatio income : ℚ) : ℚ :=
  if debtRatio = 0 then 0 else income / (debtRatio * income + eps)

/-- Line 166: `RevolvingUtilizationOfUnsecuredLines / (NumberOfOpenCreditLinesAndLoans + 1)`. -/
def CreditBurden (r : ImputedRecord) : ℚ :=
  r.RevolvingUtilizationOfUnsecuredLines / (r.NumberOfOpenCreditLinesAndLoans + 1)

/-- Lines 153–175, `engineer_features`: the numeric columns of the engineered
frame in dataframe order (the ten originals with `age` truncated, then the
three derived columns appended), together with the categorical `AgeGroup`
column kept separately since `get_dummies` consumes it. -/
def engineer_features (r : ImputedRecord) : Row × Option AgeGroup :=
  ([("RevolvingUtilizationOfUnsecuredLines", r.RevolvingUtilizationOfUnsecuredLines),
    ("age", (ratTrunc r.age : ℚ)),
    ("NumberOfTime30-59DaysPastDueNotWorse", r.NumberOfTime30_59DaysPastDueNotWorse),
    ("DebtRatio", r.DebtRatio),
    ("MonthlyIncome", r.MonthlyIncome),
    ("NumberOfOpenCreditLinesAndLoans", r.NumberOfOpenCreditLinesAndLoans),
    ("NumberOfTimes90DaysLate", r.NumberOfTimes90DaysLate),
    ("NumberRealEstateLoansOrLines", r.NumberRealEstateLoansOrLines),
    ("NumberOfTime60-89DaysPastDueNotWorse", r.NumberOfTime60_89DaysPastDueNotWorse),
    ("NumberOfDependents", r.NumberOfDependents),
    ("TotalMissedPayments", TotalMissedPayments r),
    ("IncomeDebtRatio", IncomeDebtRatio r.DebtRatio r.MonthlyIncome),
    ("CreditBurden", CreditBurden r)],
   pdCutAge (ratTrunc r.age))

/-- Indicator value of one dummy column. -/
def indicator (g : Option AgeGroup) (c : AgeGroup) : ℚ := if g = some c then 1 else 0

/-- Line 188: `pd.get_dummies(processed_df, columns=["AgeGroup"], drop_first=True)`.
The first category `Young` is dropped; one indicator column per remaining
category is appended, in category (bin) order. -/
def get_dummies_AgeGroup (g : Option AgeGroup) : Row :=
  [("AgeGroup_Middle-aged", indicator g AgeGroup.MiddleAged),
   ("AgeGroup_Senior", indicator g AgeGroup.Senior),
   ("AgeGroup_Elderly", indicator g AgeGroup.Elderly)]

/-- The label column name excluded on line 192. -/
def labelCol : String := "SeriousDlqin2yrs"

/-- Lines 190–193: walk `feature_names`; any schema column not yet present and
distinct from the label column is appended with value 0. -/
def fillMissingCols : Row → List String → Row
  | row, [] => row
  | row, c :: cs =>
    if !hasCol row c && c != labelCol then fillMissingCols (row ++ [(c, 0)]) cs
    else fillMissingCols row cs

/-- Line 196: `processed_df[feature_names]` selects the named columns in schema
order; a name with no column is a KeyError, caught as a per-request failure. -/
def selectCols (row : Row) : List String → Option Row
  | [] => some []
  | c :: cs =>
    match lookupCol row c, selectCols row cs with
    | some v, some rest => some ((c, v) :: rest)
    | _, _ => none

/-- Line 199, `scaler.transform`: `(x - mean) / scale` per fitted column;
raises when the column count differs from the fitted parameter count. -/
def scaler_transform (params : List (ℚ × ℚ)) (xs : List ℚ) : Option (List ℚ) :=
  if xs.length = params.length then
    some (List.zipWith (fun p x => (x - p.1) / p.2) params xs)
  else none

/-- The engineered frame after imputation and one-hot encoding (lines 181–188):
the numeric columns with the dummy columns appended at the end. -/
def engineeredRow (arts : Artifacts) (r : ApplicantRecord) : Row :=
  (engineer_features (imputeRecord arts r)).1 ++
    get_dummies_AgeGroup (engineer_features (imputeRecord arts r)).2

/-- The frame at line 196 after zero-filling and schema-order selection. -/
def alignedRow (arts : Artifacts) (r : ApplicantRecord) : Option Row :=
  selectCols (fillMissingCols (engineeredRow arts r) arts.feature_names) arts.feature_names

/-- Lines 178–204, `preprocess_input`: the scaled vector handed to the model,
or `none` when the caught exception path (`st.error`; `st.stop`) rejects the
request. -/
def preprocess_input (arts : Artifacts) (r : ApplicantRecord) : Option (List ℚ) :=
  (alignedRow arts r).bind (fun sel => scaler_transform arts.scalerParams (sel.map Prod.snd))

/-- Lines 181–182 assign the imputed columns back into the frame the caller
passed, in place: this is the record the caller holds after the call. -/
def writtenBack (arts : Artifacts) (r : ApplicantRecord) : ApplicantRecord :=
  { r with
    MonthlyIncome := some (impute r.MonthlyIncome arts.medianIncome)
    NumberOfDependents := some (impute r.NumberOfDependents arts.modeDependents) }

/-- `preprocess_input` with the in-place mutation of its argument made
explicit: the caller's frame after the call, paired with the result. -/
def preprocess_input_state (arts : Artifacts) (r : ApplicantRecord) :
    ApplicantRecord × Option (List ℚ) :=
  (writtenBack arts r, preprocess_input arts r)

/-- Lines 275–276: `model.predict_proba(processed_data)[0, 1]`, or `none` when
preprocessing rejected the request. -/
def predict_probability (arts : Artifacts) (r : ApplicantRecord) : Option ℚ :=
  (preprocess_input arts r).map arts.predictProba

/-- The three risk bands of lines 285–296. -/
inductive RiskBand where
  | Low
  | Medium
  | High
deriving DecidableEq

/-- The triple set in each branch of lines 285–296. -/
structure RiskResult where
  band : RiskBand
  color : String
  recommendation : String
deriving DecidableEq

/-- Lines 285–296 of `main`: the probability is mapped to a band, a color and
a fixed recommendation text. -/
def categorize (p : ℚ) : RiskResult :=
  if p < 3/10 then
    ⟨RiskBand.Low, "#4CAF50", "✅ This applicant appears to be a low credit risk."⟩
  else if p < 7/10 then
    ⟨RiskBand.Medium, "#FFA500", "⚠️ This applicant has moderate credit risk. Further review recommended."⟩
  else
    ⟨RiskBand.High, "#F44336", "❌ This applicant appears to be a high credit risk."⟩

/-- The whole scoring path of `main` for one submitted record: probability,
band and recommendation, or `none` when the request was rejected. -/
def score_request (arts : Artifacts) (r : ApplicantRecord) : Option (ℚ × RiskResult) :=
  (predict_probability arts r).map (fun p => (p, categorize p))

/-- The age bucketing as the spec words it, on the already-truncated age:
`(0,30]` Young, `(30,50]` Middle-aged, `(50,65]` Senior, `(65,100]` Elderly;
written independently of `pdCutAge` for comparison, for ages in `[18,100]`. -/
def specAgeBucket (n : ℤ) : AgeGroup :=
  if n ≤ 30 then AgeGroup.Young
  else if n ≤ 50 then AgeGroup.MiddleAged
  else if n ≤ 65 then AgeGroup.Senior
  else AgeGroup.Elderly

/-- A concrete submitted record: the form default values of lines 221–251. -/
def wRecord : ApplicantRecord :=
  ⟨1/2, 30, 0, 1/2, some 5000, 5, 0, 1, 0, some 0⟩

/-- The same record with `MonthlyIncome` missing. -/
def wRecordMissingIncome : ApplicantRecord :=
  ⟨1/2, 30, 0, 1/2, none, 5, 0, 1, 0, some 0⟩

/-- A concrete artifact set whose schema length matches its scaler parameter
count, including one schema column the engineered frame never produces. -/
def wArts : Artifacts :=
  ⟨5000, 0, ["age", "MonthlyIncome", "AgeGroup_Senior", "OfflineOnlyFeature"],
   [(0, 1), (0, 1), (0, 1), (0, 1)], fun _ => 1/2⟩

/-- A concrete artifact set fitted with a different column count: two schema
columns but a single scaler parameter. -/
def wArtsMismatch : Artifacts :=
  ⟨5000, 0, ["age", "MonthlyIncome"], [(0, 1)], fun _ => 1/2⟩

lemma find?_append_some {α : Type} (p : α → Bool) (l1 l2 : List α) (a : α)
    (h : l1.find? p = some a) : (l1 ++ l2).find? p = some a := by
  induction l1 with
  | nil => simp [List.find?] at h
  | cons x xs ih =>
    by_cases hx : p x
    · rw [List.find?_cons_of_pos _ hx] at h
      simpa [List.find?_cons_of_pos _ hx] using h
    · rw [List.find?_cons_of_neg _ hx] at h
      simpa [List.find?_cons_of_neg _ hx] using ih h

lemma find?_append_none {α : Type} (p : α → Bool) (l1 l2 : List α)
    (h : l1.find? p = none) : (l1 ++ l2).find? p = l2.find? p := by
  induction l1 with
  | nil => simp
  | cons x xs ih =>
    by_cases hx : p x
    · rw [List.find?_cons_of_pos _ hx] at h; exact absurd h (by simp)
    · rw [List.find?_cons_of_neg _ hx] at h
      simpa [List.find?_cons_of_neg _ hx] using ih h

lemma find?_key_cons_pos (x : String × ℚ) (xs : Row) (c : String)
    (hx : (x.1 == c) = true) :
    List.find? (fun p => p.1 == c) (x :: xs) = some x :=
  List.find?_cons_of_pos xs hx

lemma find?_key_cons_neg (x : String × ℚ) (xs : Row) (c : String)
    (hx : (x.1 == c) = false) :
    List.find? (fun p => p.1 == c) (x :: xs) = List.find? (fun p => p.1 == c) xs :=
  List.find?_cons_of_neg xs (by simp [hx])

lemma lookupCol_isSome_of_hasCol (row : Row) (c : String) (h : hasCol row c = true) :
    (lookupCol row c).isSome := by
  induction row with
  | nil => simp [hasCol] at h
  | cons x xs ih =>
    cases hx : (x.1 == c) with
    | true =>
      unfold lookupCol
      rw [find?_key_cons_pos x xs c hx]
      rfl
    | false =>
      have hxs : hasCol xs c = true := by simpa [hasCol, hx] using h
      have hres := ih hxs
      unfold lookupCol at hres ⊢
      rwa [find?_key_cons_neg x xs c hx]

lemma hasCol_of_lookupCol (row : Row) (c : String) (v : ℚ)
    (h : lookupCol row c = some v) : hasCol row c = true := by
  induction row with
  | nil => simp [lookupCol, List.find?] at h
  | cons x xs ih =>
    cases hx : (x.1 == c) with
    | true => simp [hasCol, hx]
    | false =>
      have h2 : lookupCol xs c = some v := by
        unfold lookupCol at h ⊢
        rwa [find?_key_cons_neg x xs c hx] at h
      simpa [hasCol, hx] using ih h2

lemma lookupCol_append_left (row row2 : Row) (c : String) (v : ℚ)
    (h : lookupCol row c = some v) : lookupCol (row ++ row2) c = some v := by
  unfold lookupCol at h ⊢
  cases hf : List.find? (fun p => p.1 == c) row with
  | none => rw [hf] at h; simp at h
  | some a =>
    rw [hf] at h
    rw [find?_append_some _ _ _ _ hf]
    exact h

lemma lookupCol_append_right (row row2 : Row) (c : String)
    (h : hasCol row c = false) : lookupCol (row ++ row2) c = lookupCol row2 c := by
  have hn : List.find? (fun p => p.1 == c) row = none := by
    cases hf : List.find? (fun p => p.1 == c) row with
    | none => rfl
    | some a =>
      have hsome : lookupCol row c = some a.2 := by
        unfold lookupCol
        rw [hf]
        rfl
      rw [hasCol_of_lookupCol row c a.2 hsome] at h
      cases h
  unfold lookupCol
  rw [find?_append_none _ _ _ hn]

lemma hasCol_append (row row2 : Row) (c : String) :
    hasCol (row ++ row2) c = (hasCol row c || hasCol row2 c) := by
  simp [hasCol, List.any_append]

lemma fillMissingCols_lookup_preserved (cs : List String) (row : Row) (c : String) (v : ℚ)
    (h : lookupCol row c = some v) :
    lookupCol (fillMissingCols row cs) c = some v := by
  induction cs generalizing row with
  | nil => simpa [fillMissingCols] using h
  | cons d ds ih =>
    unfold fillMissingCols
    split
    · exact ih _ (lookupCol_append_left _ _ _ _ h)
    · exact ih _ h

lemma fillMissingCols_hasCol_preserved (cs : List String) (row : Row) (c : String)
    (h : hasCol row c = true) :
    hasCol (fillMissingCols row cs) c = true := by
  induction cs generalizing row with
  | nil => simpa [fillMissingCols] using h
  | cons d ds ih =>
    unfold fillMissingCols
    split
    · exact ih _ (by rw [hasCol_append, h]; rfl)
    · exact ih _ h

lemma fillMissingCols_complete (cs : List String) (row : Row) (c : String)
    (hc : c ∈ cs) (hlab : c ≠ labelCol) :
    hasCol (fillMissingCols row cs) c = true := by
  induction cs generalizing row with
  | nil => cases hc
  | cons d ds ih =>
    unfold fillMissingCols
    rcases List.mem_cons.mp hc with rfl | hmem
    · split
      case isTrue h =>
        apply fillMissingCols_hasCol_preserved
        rw [hasCol_append]
        simp [hasCol]
      case isFalse h =>
        have hbne : (c != labelCol) = true := bne_iff_ne.mpr hlab
        rw [hbne, Bool.and_true, Bool.not_eq_true', Bool.not_eq_false] at h
        exact fillMissingCols_hasCol_preserved _ _ _ h
    · split
      · exact ih _ hmem
      · exact ih _ hmem

lemma fillMissingCols_lookup_filled (cs : List String) (row : Row) (c : String)
    (hc : c ∈ cs) (hlab : c ≠ labelCol) (habs : hasCol row c = false) :
    lookupCol (fillMissingCols row cs) c = some 0 := by
  induction cs generalizing row with
  | nil => cases hc
  | cons d ds ih =>
    unfold fillMissingCols
    rcases eq_or_ne c d with rfl | hcd
    · rw [if_pos]
      · apply fillMissingCols_lookup_preserved
        rw [lookupCol_append_right _ _ _ habs]
        simp [lookupCol, List.find?]
      · rw [habs, bne_iff_ne.mpr hlab]; rfl
    · have hmem : c ∈ ds := by
        rcases List.mem_cons.mp hc with h | h
        · exact absurd h hcd
        · exact h
      split
      · apply ih _ hmem
        rw [hasCol_append, habs]
        simpa [hasCol] using fun h => hcd (by rw [h])
      · exact ih _ hmem habs

lemma selectCols_map_fst (row : Row) (cs : List String) (sel : Row)
    (h : selectCols row cs = some sel) : sel.map Prod.fst = cs := by
  induction cs generalizing sel with
  | nil =>
    unfold selectCols at h
    cases h
    rfl
  | cons c ds ih =>
    unfold selectCols at h
    cases hl : lookupCol row c with
    | none => rw [hl] at h; cases h
    | some v =>
      rw [hl] at h
      cases hs : selectCols row ds with
      | none => rw [hs] at h; cases h
      | some rest =>
        rw [hs] at h
        cases h
        simpa using ih rest hs

lemma selectCols_isSome (row : Row) (cs : List String)
    (h : ∀ c ∈ cs, (lookupCol row c).isSome) :
    ∃ sel, selectCols row cs = some sel := by
  induction cs with
  | nil => exact ⟨[], rfl⟩
  | cons c ds ih =>
    obtain ⟨sel, hsel⟩ := ih (fun d hd => h d (List.mem_cons_of_mem _ hd))
    obtain ⟨v, hv⟩ := Option.isSome_iff_exists.mp (h c (List.mem_cons_self _ _))
    refine ⟨(c, v) :: sel, ?_⟩
    unfold selectCols
    rw [hv, hsel]

lemma selectCols_mem (row : Row) (cs : List String) (sel : Row) (c : String) (v : ℚ)
    (h : selectCols row cs = some sel) (hc : c ∈ cs) (hv : lookupCol row c = some v) :
    (c, v) ∈ sel := by
  induction cs generalizing sel with
  | nil => cases hc
  | cons d ds ih =>
    unfold selectCols at h
    cases hl : lookupCol row d with
    | none => rw [hl] at h; cases h
    | some w =>
      rw [hl] at h
      cases hs : selectCols row ds with
      | none => rw [hs] at h; cases h
      | some rest =>
        rw [hs] at h
        cases h
        rcases List.mem_cons.mp hc with rfl | hmem
        · rw [hv] at hl
          cases hl
          exact List.mem_cons_self _ _
        · exact List.mem_cons_of_mem _ (ih rest hs hmem)

lemma alignedRow_spec (arts : Artifacts) (r : ApplicantRecord)
    (hlab : labelCol ∉ arts.feature_names) :
    ∃ sel, alignedRow arts r = some sel ∧ sel.map Prod.fst = arts.feature_names := by
  have hall : ∀ c ∈ arts.feature_names,
      (lookupCol (fillMissingCols (engineeredRow arts r) arts.feature_names) c).isSome := by
    intro c hc
    apply lookupCol_isSome_of_hasCol
    exact fillMissingCols_complete _ _ _ hc (fun h => hlab (h ▸ hc))
  obtain ⟨sel, hsel⟩ := selectCols_isSome _ _ hall
  exact ⟨sel, hsel, selectCols_map_fst _ _ _ hsel⟩

/-- C1: for every probability in `[0,1]`, the categorizer assigns Low exactly
on `[0, 0.3)`, Medium exactly on `[0.3, 0.7)` and High exactly on `[0.7, 1]`,
so the three bands cover `[0,1]` with no gap or overlap at `0.3` and `0.7`;
and the recommendation text is a fixed function of the band. -/
theorem categorize_partitions (p : ℚ) (h0 : 0 ≤ p) (h1 : p ≤ 1) :
    ((categorize p).band = RiskBand.Low ↔ 0 ≤ p ∧ p < 3/10) ∧
    ((categorize p).band = RiskBand.Medium ↔ 3/10 ≤ p ∧ p < 7/10) ∧
    ((categorize p).band = RiskBand.High ↔ 7/10 ≤ p ∧ p ≤ 1) ∧
    ∀ q : ℚ, (categorize q).band = (categorize p).band →
      (categorize q).recommendation = (categorize p).recommendation := by
  refine ⟨?_, ?_, ?_, ?_⟩
  · unfold categorize
    split_ifs with ha hb <;> simp_all <;> try linarith
  · unfold categorize
    split_ifs with ha hb <;> simp_all <;> try linarith
  · unfold categorize
    split_ifs with ha hb <;> simp_all <;> try linarith
  · intro q hq
    unfold categorize at hq ⊢
    split_ifs at hq ⊢ <;> simp_all

/-- Witness for C1 at the concrete probability 1/2, which lies in the Medium
band. -/
theorem categorize_partitions_witness :
    (0:ℚ) ≤ 1/2 ∧ (1/2:ℚ) ≤ 1 ∧ (categorize (1/2)).band = RiskBand.Medium :=
  ⟨by norm_num, by norm_num,
   ((categorize_partitions (1/2) (by norm_num) (by norm_num)).2.1).mpr
     ⟨by norm_num, by norm_num⟩⟩

/-- C3: for every imputed record, the engineered `IncomeDebtRatio` column is 0
when `DebtRatio = 0` and otherwise the literal
`MonthlyIncome / (DebtRatio * MonthlyIncome + 1e-6)`; at `DebtRatio = 1/2`,
`MonthlyIncome = 5000` this is `5000 / (2500 + 1e-6)`, which differs from the
simplified `1 / DebtRatio`. -/
theorem incomeDebtRatio_formula (r : ImputedRecord) :
    lookupCol (engineer_features r).1 "IncomeDebtRatio" =
      some (if r.DebtRatio = 0 then 0
            else r.MonthlyIncome / (r.DebtRatio * r.MonthlyIncome + 1/1000000)) ∧
    IncomeDebtRatio (1/2) 5000 = 5000 / ((1/2) * 5000 + 1/1000000) ∧
    IncomeDebtRatio (1/2) 5000 ≠ 1 / (1/2 : ℚ) := by
  refine ⟨rfl, ?_, ?_⟩
  · unfold IncomeDebtRatio eps
    norm_num
  · unfold IncomeDebtRatio eps
    norm_num

/-- C4: for ages in `[18, 100]`, the code first truncates the age to an
integer and then buckets it exactly as the spec says: `(0,30]` Young,
`(30,50]` Middle-aged, `(50,65]` Senior, `(65,100]` Elderly. -/
theorem ageGroup_buckets (a : ℚ) (h18 : 18 ≤ a) (h100 : a ≤ 100) :
    pdCutAge (ratTrunc a) = some (specAgeBucket (ratTrunc a)) := by
  have h0 : (0:ℚ) ≤ a := le_trans (by norm_num) h18
  have htr : ratTrunc a = ⌊a⌋ := if_pos h0
  have hl : (18:ℤ) ≤ ⌊a⌋ := Int.le_floor.mpr (by exact_mod_cast h18)
  have hu : ⌊a⌋ ≤ (100:ℤ) := by
    exact_mod_cast le_trans (Int.floor_le a) h100
  rw [htr]
  unfold pdCutAge specAgeBucket
  split_ifs <;> first | rfl | omega

/-- Witness for C4 at the six boundary ages named by the spec. -/
theorem ageGroup_buckets_witness :
    pdCutAge (ratTrunc 30) = some AgeGroup.Young ∧
    pdCutAge (ratTrunc 31) = some AgeGroup.MiddleAged ∧
    pdCutAge (ratTrunc 50) = some AgeGroup.MiddleAged ∧
    pdCutAge (ratTrunc 51) = some AgeGroup.Senior ∧
    pdCutAge (ratTrunc 65) = some AgeGroup.Senior ∧
    pdCutAge (ratTrunc 66) = some AgeGroup.Elderly :=
  ⟨(ageGroup_buckets 30 (by norm_num) (by norm_num)).trans (by decide),
   (ageGroup_buckets 31 (by norm_num) (by norm_num)).trans (by decide),
   (ageGroup_buckets 50 (by norm_num) (by norm_num)).trans (by decide),
   (ageGroup_buckets 51 (by norm_num) (by norm_num)).trans (by decide),
   (ageGroup_buckets 65 (by norm_num) (by norm_num)).trans (by decide),
   (ageGroup_buckets 66 (by norm_num) (by norm_num)).trans (by decide)⟩

/-- C5: the one-hot encoding of `AgeGroup` drops the first category: its
columns are exactly Middle-aged, Senior, Elderly (no Young column); a Young
record has all three indicators 0, and any other bucket has exactly its own
indicator 1. -/
theorem dummies_drop_first (g : AgeGroup) :
    ((get_dummies_AgeGroup (some g)).map Prod.fst =
      ["AgeGroup_Middle-aged", "AgeGroup_Senior", "AgeGroup_Elderly"]) ∧
    ((get_dummies_AgeGroup (some g)).map Prod.snd =
      match g with
      | AgeGroup.Young => [0, 0, 0]
      | AgeGroup.MiddleAged => [1, 0, 0]
      | AgeGroup.Senior => [0, 1, 0]
      | AgeGroup.Elderly => [0, 0, 1]) := by
  cases g <;> exact ⟨rfl, by decide⟩

/-- C10: `IncomeDebtRatio` is 0 whenever `DebtRatio` is 0 or `MonthlyIncome`
is 0: with zero income the numerator is 0 and the denominator reduces to the
epsilon `1e-6`, so no division by zero occurs. -/
theorem incomeDebtRatio_zero_cases (d m : ℚ) (h : d = 0 ∨ m = 0) :
    IncomeDebtRatio d m = 0 := by
  unfold IncomeDebtRatio
  rcases h with h | h
  · rw [if_pos h]
  · subst h
    split_ifs with hd
    · rfl
    · simp

/-- Witness for C10 at zero income with nonzero debt ratio, and at zero debt
ratio with nonzero income. -/
theorem incomeDebtRatio_zero_cases_witness :
    IncomeDebtRatio (1/2) 0 = 0 ∧ IncomeDebtRatio 0 5000 = 0 :=
  ⟨incomeDebtRatio_zero_cases (1/2) 0 (Or.inr rfl),
   incomeDebtRatio_zero_cases 0 5000 (Or.inl rfl)⟩

/-- C2: when the schema does not name the label column, alignment always
succeeds and the frame handed to the scaler has exactly the schema's columns
in the schema's order — the same length for every input record — and every
schema column the engineered frame lacks was inserted with value 0. -/
theorem preprocess_schema_invariant (arts : Artifacts) (r : ApplicantRecord)
    (hlab : labelCol ∉ arts.feature_names) :
    ∃ sel, alignedRow arts r = some sel ∧
      sel.map Prod.fst = arts.feature_names ∧
      sel.length = arts.feature_names.length ∧
      ∀ c ∈ arts.feature_names,
        hasCol (engineeredRow arts r) c = false → (c, 0) ∈ sel := by
  obtain ⟨sel, h1, h2⟩ := alignedRow_spec arts r hlab
  refine ⟨sel, h1, h2, ?_, ?_⟩
  · rw [← h2, List.length_map]
  · intro c hc habs
    have hlab2 : c ≠ labelCol := fun h => hlab (h ▸ hc)
    have hfill := fillMissingCols_lookup_filled arts.feature_names
      (engineeredRow arts r) c hc hlab2 habs
    unfold alignedRow at h1
    exact selectCols_mem _ _ _ _ _ h1 hc hfill

/-- Witness for C2: concrete artifacts whose schema has a column the
engineered frame never produces, and the concrete form-default record. -/
theorem preprocess_schema_invariant_witness :
    labelCol ∉ wArts.feature_names ∧
    ∃ sel, alignedRow wArts wRecord = some sel ∧
      sel.map Prod.fst = wArts.feature_names ∧
      sel.length = wArts.feature_names.length ∧
      ∀ c ∈ wArts.feature_names,
        hasCol (engineeredRow wArts wRecord) c = false → (c, 0) ∈ sel :=
  ⟨by decide, preprocess_schema_invariant wArts wRecord (by decide)⟩

/-- C6: when the schema length differs from the scaler parameter count (an
artifact fitted with a different column count), preprocessing returns no
vector and no probability is produced: the mismatch is never truncated,
padded, or turned into a default score. -/
theorem schema_mismatch_rejected (arts : Artifacts) (r : ApplicantRecord)
    (hlab : labelCol ∉ arts.feature_names)
    (hmis : arts.feature_names.length ≠ arts.scalerParams.length) :
    preprocess_input arts r = none ∧ predict_probability arts r = none := by
  obtain ⟨sel, h1, h2⟩ := alignedRow_spec arts r hlab
  have hlen : (sel.map Prod.snd).length = arts.feature_names.length := by
    rw [List.length_map, ← h2, List.length_map]
  have hscale : scaler_transform arts.scalerParams (sel.map Prod.snd) = none := by
    unfold scaler_transform
    rw [if_neg]
    rw [hlen]
    exact hmis
  constructor
  · unfold preprocess_input
    rw [h1]
    simpa using hscale
  · unfold predict_probability preprocess_input
    rw [h1]
    simp [hscale]

/-- Witness for C6: two schema columns against a single fitted scaler column
rejects the concrete form-default record. -/
theorem schema_mismatch_rejected_witness :
    labelCol ∉ wArtsMismatch.feature_names ∧
    wArtsMismatch.feature_names.length ≠ wArtsMismatch.scalerParams.length ∧
    preprocess_input wArtsMismatch wRecord = none ∧
    predict_probability wArtsMismatch wRecord = none :=
  ⟨by decide, by decide,
   (schema_mismatch_rejected wArtsMismatch wRecord (by decide) (by decide)).1,
   (schema_mismatch_rejected wArtsMismatch wRecord (by decide) (by decide)).2⟩

/-- C7: imputation happens before derivation — the imputed record holds the
median for a missing income and the mode for missing dependents, present
values pass through unchanged, and the derived columns of the engineered
frame are computed from the already-imputed income. -/
theorem imputation_before_derivation (arts : Artifacts) (r : ApplicantRecord) :
    (imputeRecord arts r).MonthlyIncome = r.MonthlyIncome.getD arts.medianIncome ∧
    (imputeRecord arts r).NumberOfDependents = r.NumberOfDependents.getD arts.modeDependents ∧
    (∀ v, r.MonthlyIncome = some v → (imputeRecord arts r).MonthlyIncome = v) ∧
    (∀ v, r.NumberOfDependents = some v → (imputeRecord arts r).NumberOfDependents = v) ∧
    lookupCol (engineeredRow arts r) "IncomeDebtRatio" =
      some (IncomeDebtRatio r.DebtRatio (r.MonthlyIncome.getD arts.medianIncome)) ∧
    lookupCol (engineeredRow arts r) "CreditBurden" =
      some (CreditBurden (imputeRecord arts r)) ∧
    lookupCol (engineeredRow arts r) "MonthlyIncome" =
      some (r.MonthlyIncome.getD arts.medianIncome) ∧
    lookupCol (engineeredRow arts r) "NumberOfDependents" =
      some (r.NumberOfDependents.getD arts.modeDependents) := by
  refine ⟨rfl, rfl, ?_, ?_, rfl, rfl, rfl, rfl⟩
  · intro v hv
    simp [imputeRecord, impute, hv]
  · intro v hv
    simp [imputeRecord, impute, hv]

/-- Witness for C7 at the concrete form-default record, whose income is
present and passes through imputation unchanged. -/
theorem imputation_before_derivation_witness :
    wRecord.MonthlyIncome = some 5000 ∧
    (imputeRecord wArts wRecord).MonthlyIncome = 5000 :=
  ⟨rfl, (imputation_before_derivation wArts wRecord).2.2.1 5000 rfl⟩

lemma imputeRecord_writtenBack (arts : Artifacts) (r : ApplicantRecord) :
    imputeRecord arts (writtenBack arts r) = imputeRecord arts r := by
  simp [imputeRecord, writtenBack, impute]

/-- C8: scoring is a pure function of the record and the fitted artifacts:
re-running the pipeline on the frame the first run left behind (including its
in-place imputation writes) produces the identical probability and identical
assessment, and whenever a probability is produced the band and
recommendation are exactly those the categorizer computes from it. -/
theorem scoring_deterministic (arts : Artifacts) (r : ApplicantRecord) :
    predict_probability arts (preprocess_input_state arts r).1 =
      predict_probability arts r ∧
    score_request arts (preprocess_input_state arts r).1 = score_request arts r ∧
    ∀ p, predict_probability arts r = some p →
      score_request arts r = some (p, categorize p) := by
  have h : imputeRecord arts (writtenBack arts r) = imputeRecord arts r :=
    imputeRecord_writtenBack arts r
  refine ⟨?_, ?_, ?_⟩
  · simp [preprocess_input_state, predict_probability, preprocess_input,
      alignedRow, engineeredRow, h]
  · simp [score_request, preprocess_input_state, predict_probability,
      preprocess_input, alignedRow, engineeredRow, h]
  · intro p hp
    simp [score_request, hp]

/-- Witness for C8: the concrete artifacts score the form-default record to
probability 1/2, and the assessment pairs it with its Medium-band result. -/
theorem scoring_deterministic_witness :
    predict_probability wArts wRecord = some (1/2) ∧
    score_request wArts wRecord = some (1/2, categorize (1/2)) :=
  ⟨rfl, (scoring_deterministic wArts wRecord).2.2 (1/2) rfl⟩

/-- C9 counterexample: the pipeline writes the imputed value back into the
caller's frame, so a record with a missing `MonthlyIncome` is not unchanged
after preprocessing — its income field now holds the fitted median. -/
theorem record_mutated_counterexample :
    (preprocess_input_state wArts wRecordMissingIncome).1 ≠ wRecordMissingIncome ∧
    wRecordMissingIncome.MonthlyIncome = none ∧
    (preprocess_input_state wArts wRecordMissingIncome).1.MonthlyIncome =
      some wArts.medianIncome := by
  refine ⟨?_, rfl, rfl⟩
  intro h
  have hmi : (preprocess_input_state wArts wRecordMissingIncome).1.MonthlyIncome =
      wRecordMissingIncome.MonthlyIncome := by rw [h]
  rw [show (preprocess_input_state wArts wRecordMissingIncome).1.MonthlyIncome =
      some 5000 from rfl] at hmi
  exact Option.noConfusion hmi

/-- C9 amended: after a scoring call the eight fields the imputers never
touch are unchanged, while `MonthlyIncome` and `NumberOfDependents` hold the
imputed values written back in place — the original value when it was
present, the fitted statistic when it was missing. -/
theorem record_writeback (arts : Artifacts) (r : ApplicantRecord) :
    (preprocess_input_state arts r).1.RevolvingUtilizationOfUnsecuredLines =
      r.RevolvingUtilizationOfUnsecuredLines ∧
    (preprocess_input_state arts r).1.age = r.age ∧
    (preprocess_input_state arts r).1.NumberOfTime30_59DaysPastDueNotWorse =
      r.NumberOfTime30_59DaysPastDueNotWorse ∧
    (preprocess_input_state arts r).1.DebtRatio = r.DebtRatio ∧
    (preprocess_input_state arts r).1.NumberOfOpenCreditLinesAndLoans =
      r.NumberOfOpenCreditLinesAndLoans ∧
    (preprocess_input_state arts r).1.NumberOfTimes90DaysLate =
      r.NumberOfTimes90DaysLate ∧
    (preprocess_input_state arts r).1.NumberRealEstateLoansOrLines =
      r.NumberRealEstateLoansOrLines ∧
    (preprocess_input_state arts r).1.NumberOfTime60_89DaysPastDueNotWorse =
      r.NumberOfTime60_89DaysPastDueNotWorse ∧
    (preprocess_input_state arts r).1.MonthlyIncome =
      some (r.MonthlyIncome.getD arts.medianIncome) ∧
    (preprocess_input_state arts r).1.NumberOfDependents =
      some (r.NumberOfDependents.getD arts.modeDependents) :=
  ⟨rfl, rfl, rfl, rfl, rfl, rfl, rfl, rfl, rfl, rfl⟩

end CreditRisk
